import Mathlib

/-!
Verification of the HyprShare session-relay core (`server.py`, `agent.py`).

The Python sources are shallowly embedded:

* Python JSON values become the inductive `JVal`; Python truthiness and the
  raising subscript `msg["type"]` are modelled by `JVal.truthy` and
  `JVal.getItem` (returning `Except PyErr`).
* Python strings on the data path are carried as Lean `String`s; their wire
  representation is the UTF-8 byte list `encodeUtf8`.  The scrollback buffer
  `Session.buf` is a byte list, exactly as `bytearray` in the source.  The
  lossy decode `scrollback_text()` used for the replay frame is represented by
  the buffer's byte content itself (the two coincide for valid UTF-8 buffers;
  no claim below exercises an invalid buffer).
* `await ws.send_text(...)` raising is modelled by a failure predicate
  `bad : Nat → Bool` over viewer channel ids, and by a boolean `agentOk` for
  the agent channel; a raising send delivers nothing.
* `uuid.uuid4()` is modelled by an arbitrary 128-bit natural number; its
  `.hex` is the 32-digit zero-padded lowercase hexadecimal rendering.
-/

-- ---------------------------------------------------------------------------
-- Python JSON values and dict/int primitives
-- ---------------------------------------------------------------------------

/-- A parsed JSON value, as produced by `json.loads`. -/
inductive JVal where
  | null : JVal
  | bool (b : Bool) : JVal
  | num (n : Int) : JVal
  | str (s : String) : JVal
  | arr (xs : List JVal) : JVal
  | obj (kvs : List (String × JVal)) : JVal

/-- Python `==` between a JSON value and a string literal: true exactly when
the value is that string (cross-type comparison is `False`). -/
def JVal.isStrEq (t : JVal) (s : String) : Bool :=
  match t with
  | .str s' => s' == s
  | _ => false

/-- Python truthiness of a JSON value (`if not msg: continue`). -/
def JVal.truthy : JVal → Bool
  | .null => false
  | .bool b => b
  | .num n => n != 0
  | .str s => !s.isEmpty
  | .arr xs => !xs.isEmpty
  | .obj kvs => !kvs.isEmpty

/-- Exceptions raised by the dict/int primitives under embedding. -/
inductive PyErr where
  | keyError : PyErr
  | typeError : PyErr
  | valueError : PyErr
deriving DecidableEq

/-- `msg[k]`: subscripting a parsed JSON value.  On a dict it looks the key
up and raises `KeyError` when absent; on any other value a string subscript
raises `TypeError`. -/
def JVal.getItem : JVal → String → Except PyErr JVal
  | .obj kvs, k =>
      match kvs.lookup k with
      | some v => .ok v
      | none => .error .keyError
  | _, _ => .error .typeError

/-- `msg.get(k, dflt)` on a dict; only reached in the source after a
successful `msg["type"]`, hence only on dicts. -/
def JVal.getD (m : JVal) (k : String) (dflt : JVal) : JVal :=
  match m with
  | .obj kvs => (kvs.lookup k).getD dflt
  | _ => dflt

/-- Decimal digits of a nonempty all-digit string, else `none`. -/
def decDigitsVal (cs : List Char) : Option Nat :=
  match cs with
  | [] => none
  | _ =>
    cs.foldl
      (fun acc c =>
        match acc with
        | none => none
        | some a => if c.isDigit then some (a * 10 + (c.toNat - 48)) else none)
      (some 0)

/-- `int(x)` on the JSON values the relay can see: exact on numbers, `True`
and `False` map to 1 and 0, decimal-literal strings (with optional sign)
parse, everything else raises.  (Whitespace and underscore forms of `int()`
are not exercised by the relay.) -/
def pyInt : JVal → Except PyErr Int
  | .num n => .ok n
  | .bool b => .ok (if b then 1 else 0)
  | .str s =>
      match s.data with
      | '-' :: rest =>
          match decDigitsVal rest with
          | some n => .ok (-(n : Int))
          | none => .error .valueError
      | cs =>
          match decDigitsVal cs with
          | some n => .ok (n : Int)
          | none => .error .valueError
  | _ => .error .typeError

-- ---------------------------------------------------------------------------
-- UTF-8 bytes
-- ---------------------------------------------------------------------------

/-- One byte of PTY traffic. -/
abbrev Byte := Nat

/-- UTF-8 encoding of one scalar value. -/
def utf8Bytes (c : Char) : List Byte :=
  let n := c.toNat
  if n < 0x80 then [n]
  else if n < 0x800 then [0xC0 + n / 64, 0x80 + n % 64]
  else if n < 0x10000 then [0xE0 + n / 4096, 0x80 + n / 64 % 64, 0x80 + n % 64]
  else [0xF0 + n / 0x40000, 0x80 + n / 4096 % 64, 0x80 + n / 64 % 64, 0x80 + n % 64]

/-- `text.encode("utf-8", errors="replace")`.  (Lean `Char` excludes lone
surrogates, so the `replace` branch cannot trigger.) -/
def encodeUtf8 (s : String) : List Byte := s.data.flatMap utf8Bytes

-- ---------------------------------------------------------------------------
-- Data model: Session (server.py, `@dataclass Session`)
-- ---------------------------------------------------------------------------

/-- `SCROLLBACK_BYTES = 64 * 1024`. -/
def SCROLLBACK_BYTES : Nat := 64 * 1024

/-- The server's `Session` dataclass.  The agent channel and viewer channels
are identified by numeric ids; `viewers` is the Python `set[WebSocket]`,
kept as a duplicate-free list.  (`created: float` is wall-clock bookkeeping
with no behaviour attached and is omitted.) -/
structure Session where
  id : String
  name : String
  agent : Option Nat
  viewers : List Nat
  buf : List Byte
  cols : Int
  rows : Int
  alive : Bool
deriving DecidableEq

/-- `Session.append_output`: extend the buffer with the encoded chunk, then
trim `overflow = len(buf) - SCROLLBACK_BYTES` bytes from the front when
positive. -/
def appendOutput (buf chunk : List Byte) : List Byte :=
  let b := buf ++ chunk
  let overflow : Int := (b.length : Int) - (SCROLLBACK_BYTES : Int)
  if 0 < overflow then b.drop overflow.toNat else b

-- ---------------------------------------------------------------------------
-- Frames sent by the server
-- ---------------------------------------------------------------------------

/-- A typed server→viewer frame (the JSON payloads built in `server.py`);
`output` carries the UTF-8 bytes of its `data` string. -/
inductive OutFrame where
  | output (data : List Byte) : OutFrame
  | pong : OutFrame
  | meta (name : String) (viewers : Nat) (cols rows : Int) : OutFrame
  | disconnect (message : String) : OutFrame
  | error (message : String) : OutFrame
deriving DecidableEq

/-- One send performed by the server: a forward to the agent channel or a
frame to one viewer channel. -/
inductive Sent where
  | toAgent (m : JVal) : Sent
  | toViewer (v : Nat) (f : OutFrame) : Sent

/-- `_meta_payload(sess)`. -/
def metaPayload (s : Session) : OutFrame :=
  OutFrame.meta s.name s.viewers.length s.cols s.rows

-- ---------------------------------------------------------------------------
-- Broadcast and agent forwarding
-- ---------------------------------------------------------------------------

/-- The loop body of `Session.broadcast_to_viewers`: walk the snapshot of
the viewer set, attempt one send to each, and collect the viewers whose send
raised into `dead`. -/
def broadcastLoop (bad : Nat → Bool) (f : OutFrame) :
    List Nat → List Sent × List Nat
  | [] => ([], [])
  | v :: rest =>
      let (sent, dead) := broadcastLoop bad f rest
      if bad v then (sent, v :: dead) else (Sent.toViewer v f :: sent, dead)

/-- `Session.broadcast_to_viewers`: send to every viewer in a snapshot of
the set, then `self.viewers -= dead`. -/
def broadcastToViewers (bad : Nat → Bool) (s : Session) (f : OutFrame) :
    Session × List Sent :=
  let (sent, dead) := broadcastLoop bad f s.viewers
  ({ s with viewers := s.viewers.filter (fun v => !dead.contains v) }, sent)

/-- `Session.send_to_agent`: `False` when the agent is absent, the session
is not alive, or the send raises (`agentOk = false`); a raising send
delivers nothing. -/
def sendToAgent (agentOk : Bool) (s : Session) (m : JVal) : Bool × List Sent :=
  if s.agent.isNone || !s.alive then (false, [])
  else if agentOk then (true, [Sent.toAgent m]) else (false, [])

-- ---------------------------------------------------------------------------
-- Session registry and id minting
-- ---------------------------------------------------------------------------

/-- Lowercase hexadecimal digit character for a value below 16. -/
def hexDigitChar (n : Nat) : Char :=
  if n < 10 then Char.ofNat (48 + n) else Char.ofNat (87 + n)

/-- Little-endian hexadecimal digits of `v`, zero-padded to width `w`. -/
def hexCharsLE : Nat → Nat → List Char
  | 0, _ => []
  | w + 1, v => hexDigitChar (v % 16) :: hexCharsLE w (v / 16)

/-- `uuid.uuid4().hex` for the 128-bit draw `n`: 32 lowercase hex digits,
most significant first. -/
def uuid4Hex (n : Nat) : List Char := (hexCharsLE 32 (n % 2 ^ 128)).reverse

/-- `uuid.uuid4().hex[:10]` — the minted session id. -/
def mintSid (n : Nat) : String := ⟨(uuid4Hex n).take 10⟩

/-- `create_session`: mint the id and instantiate the dataclass with its
defaults (`agent=None`, `viewers=set()`, empty buffer, `alive=True`);
`n` is the process's random draw for this call. -/
def createSession (n : Nat) (name : String) (rows cols : Int) : Session :=
  { id := mintSid n
    name := name
    agent := none
    viewers := []
    buf := []
    cols := cols
    rows := rows
    alive := true }

/-- `_sessions[sid] = sess` on the registry dict: overwrite the value when
the key is present, append otherwise. -/
def dictSet (d : List (String × Session)) (k : String) (v : Session) :
    List (String × Session) :=
  if d.any (fun p => p.1 == k) then
    d.map (fun p => if p.1 == k then (k, v) else p)
  else d ++ [(k, v)]

/-- `create_session` together with its registry insertion. -/
def createSessionReg (d : List (String × Session)) (n : Nat) (name : String)
    (rows cols : Int) : List (String × Session) × Session :=
  let s := createSession n name rows cols
  (dictSet d s.id s, s)

/-- The registration step of `ws_agent`: `sess = create_session(...)`
followed by `sess.agent = websocket` for the agent channel `ch`. -/
def registerAgent (n : Nat) (name : String) (rows cols : Int) (ch : Nat) :
    Session :=
  let s := createSession n name rows cols
  { s with agent := some ch }

-- ---------------------------------------------------------------------------
-- Relay loops
-- ---------------------------------------------------------------------------

/-- Result of processing one inbound frame: the updated session, the sends
performed, and whether an exception escaped the per-frame handling (ending
that connection's relay loop). -/
structure StepResult where
  sess : Session
  sent : List Sent
  fatal : Bool

/-- One iteration of the `ws_viewer` relay loop for viewer `v`.  `raw` is
the `_parse_json` result (`none` on malformed JSON).  Mirrors the source:
falsy values are skipped; `msg["type"]` may raise; `ping` forwards to the
agent and on failure sends `pong` straight back; `input` forwards; `resize`
updates `cols`/`rows` via `int(msg.get(...))`, forwards, and broadcasts a
fresh `_meta_payload`. -/
def processViewerFrame (agentOk : Bool) (bad : Nat → Bool) (s : Session)
    (v : Nat) (raw : Option JVal) : StepResult :=
  match raw with
  | none => ⟨s, [], false⟩
  | some msg =>
    if !msg.truthy then ⟨s, [], false⟩
    else
      match msg.getItem "type" with
      | .error _ => ⟨s, [], true⟩
      | .ok t =>
        if t.isStrEq "ping" then
          let (ok, sent) := sendToAgent agentOk s (JVal.obj [("type", JVal.str "ping")])
          if ok then ⟨s, sent, false⟩
          else if bad v then ⟨s, sent, true⟩
          else ⟨s, sent ++ [Sent.toViewer v OutFrame.pong], false⟩
        else if t.isStrEq "input" then
          let (_, sent) := sendToAgent agentOk s msg
          ⟨s, sent, false⟩
        else if t.isStrEq "resize" then
          match pyInt (msg.getD "cols" (JVal.num s.cols)) with
          | .error _ => ⟨s, [], true⟩
          | .ok c =>
            let s1 := { s with cols := c }
            match pyInt (msg.getD "rows" (JVal.num s1.rows)) with
            | .error _ => ⟨s1, [], true⟩
            | .ok r =>
              let s2 := { s1 with rows := r }
              let (_, sentA) := sendToAgent agentOk s2 msg
              let (s3, sentB) := broadcastToViewers bad s2 (metaPayload s2)
              ⟨s3, sentA ++ sentB, false⟩
        else ⟨s, [], false⟩

/-- A linearised run of viewer-frame processing: each element is a frame
from some viewer of the session.  (A fatal frame ends only that viewer's
own loop; other viewers keep going, so every such sequence is reachable.) -/
def processViewerFrames (agentOk : Bool) (bad : Nat → Bool) (s : Session) :
    List (Nat × Option JVal) → Session × List Sent
  | [] => (s, [])
  | (v, raw) :: rest =>
      let r := processViewerFrame agentOk bad s v raw
      let (s', sent') := processViewerFrames agentOk bad r.sess rest
      (s', r.sent ++ sent')

/-- One iteration of the `ws_agent` relay loop: `output` appends the encoded
`data` to the scrollback and fans the frame out; `pong` fans out; other
types are ignored; a missing `type`/`data` key, a non-dict frame, or a
non-string `data` raises (the exception ends the loop). -/
def processAgentFrame (bad : Nat → Bool) (s : Session) (raw : Option JVal) :
    StepResult :=
  match raw with
  | none => ⟨s, [], false⟩
  | some msg =>
    if !msg.truthy then ⟨s, [], false⟩
    else
      match msg.getItem "type" with
      | .error _ => ⟨s, [], true⟩
      | .ok t =>
        if t.isStrEq "output" then
          match msg.getItem "data" with
          | .error _ => ⟨s, [], true⟩
          | .ok (JVal.str txt) =>
            let s1 := { s with buf := appendOutput s.buf (encodeUtf8 txt) }
            let (s2, sent) := broadcastToViewers bad s1 (OutFrame.output (encodeUtf8 txt))
            ⟨s2, sent, false⟩
          | .ok _ => ⟨s, [], true⟩
        else if t.isStrEq "pong" then
          let (s2, sent) := broadcastToViewers bad s OutFrame.pong
          ⟨s2, sent, false⟩
        else ⟨s, [], false⟩

/-- `_mark_agent_disconnected`: clear `alive` and the agent channel, then
broadcast one `disconnect` frame to the viewers (`schedule_prune` is timer
bookkeeping outside the state). -/
def markAgentDisconnected (bad : Nat → Bool) (s : Session) :
    Session × List Sent :=
  let s1 := { s with alive := false, agent := none }
  broadcastToViewers bad s1
    (OutFrame.disconnect ("Agent '" ++ s1.name ++ "' disconnected"))

/-- `set.add` on the viewer set. -/
def pySetAdd (l : List Nat) (v : Nat) : List Nat :=
  if l.contains v then l else l ++ [v]

/-- The join phase of `ws_viewer` for an existing session: replay the
scrollback as one `output` frame only when the buffer is nonempty, send the
current `_meta_payload` (computed before the join), then add the viewer to
the set. -/
def viewerJoin (s : Session) (v : Nat) : Session × List Sent :=
  let replay :=
    if s.buf.isEmpty then []
    else [Sent.toViewer v (OutFrame.output s.buf)]
  let sent := replay ++ [Sent.toViewer v (metaPayload s)]
  ({ s with viewers := pySetAdd s.viewers v }, sent)

/-- The operations that touch a session after registration. -/
inductive ServerOp where
  | agentFrame (bad : Nat → Bool) (raw : Option JVal) : ServerOp
  | viewerFrame (agentOk : Bool) (bad : Nat → Bool) (v : Nat) (raw : Option JVal) : ServerOp
  | viewerJoinOp (v : Nat) : ServerOp
  | viewerLeave (v : Nat) : ServerOp
  | agentClose (bad : Nat → Bool) : ServerOp

/-- Effect of one server operation on the session state (`viewerLeave` is
the `sess.viewers.discard(websocket)` in the `finally` of `ws_viewer`). -/
def applyOp (s : Session) : ServerOp → Session
  | .agentFrame bad raw => (processAgentFrame bad s raw).sess
  | .viewerFrame agentOk bad v raw => (processViewerFrame agentOk bad s v raw).sess
  | .viewerJoinOp v => (viewerJoin s v).1
  | .viewerLeave v => { s with viewers := s.viewers.filter (fun w => w ≠ v) }
  | .agentClose bad => (markAgentDisconnected bad s).1

-- ---------------------------------------------------------------------------
-- Agent side (agent.py)
-- ---------------------------------------------------------------------------

/-- `_get_terminal_size`: clamp a successful `TIOCGWINSZ` result up to the
floors, return `(24, 220)` when the query raises. -/
def getTerminalSize (query : Option (Nat × Nat)) : Nat × Nat :=
  match query with
  | some (rows, cols) => (max rows 24, max cols 80)
  | none => (24, 220)

/-- The `register` frame `_run_session` sends, built from
`_get_terminal_size()`. -/
def registerFrame (hostname shell : String) (query : Option (Nat × Nat)) : JVal :=
  let (rows, cols) := getTerminalSize query
  JVal.obj
    [("type", JVal.str "register"), ("name", JVal.str hostname),
     ("shell", JVal.str shell), ("rows", JVal.num (rows : Int)),
     ("cols", JVal.num (cols : Int))]

/-- `_set_terminal_size`: `struct.pack("HHHH", rows, cols, 0, 0)` raises
outside the unsigned-short range and the ioctl itself may fail; both are
swallowed, leaving the PTY size unchanged. -/
def setTerminalSize (pty : Int × Int) (rows cols : Int) (ioctlOk : Bool) :
    Int × Int :=
  if 0 ≤ rows ∧ rows < 65536 ∧ 0 ≤ cols ∧ cols < 65536 ∧ ioctlOk then
    (rows, cols)
  else pty

/-- The `resize` branch of the agent's `server_reader`:
`_set_terminal_size(fd, int(m.get("rows", rows)), int(m.get("cols", cols)))`
where `rows`, `cols` are the registration-time dimensions.  A raising
`int()` ends the reader loop, leaving the PTY unchanged. -/
def agentApplyResize (pty : Int × Int) (regRows regCols : Int) (m : JVal)
    (ioctlOk : Bool) : Int × Int :=
  match pyInt (m.getD "rows" (JVal.num regRows)) with
  | .error _ => pty
  | .ok r =>
      match pyInt (m.getD "cols" (JVal.num regCols)) with
      | .error _ => pty
      | .ok c => setTerminalSize pty r c ioctlOk

-- ---------------------------------------------------------------------------
-- Frame classification helpers
-- ---------------------------------------------------------------------------

/-- Is this send an `output` frame to some viewer? -/
def Sent.isOutputFrame : Sent → Bool
  | .toViewer _ (.output _) => true
  | _ => false

/-- Is this send a `disconnect` frame to some viewer? -/
def Sent.isDisconnectFrame : Sent → Bool
  | .toViewer _ (.disconnect _) => true
  | _ => false

/-- Is this send a `disconnect` frame to viewer `v`? -/
def Sent.isDisconnectTo (v : Nat) : Sent → Bool
  | .toViewer w (.disconnect _) => w == v
  | _ => false

/-- The `{"type": "ping"}` frame the server forwards to the agent. -/
def pingMsg : JVal := JVal.obj [("type", JVal.str "ping")]

/-- A viewer `resize` frame with integer `cols` and `rows` fields. -/
def resizeMsg (c r : Int) : JVal :=
  JVal.obj [("type", JVal.str "resize"), ("cols", JVal.num c),
    ("rows", JVal.num r)]

/-- An agent `output` frame carrying `txt`. -/
def outputMsg (txt : String) : JVal :=
  JVal.obj [("type", JVal.str "output"), ("data", JVal.str txt)]

/-- Lowercase-hexadecimal character test: `0`–`9` or `a`–`f`. -/
def isLowerHexDigit (c : Char) : Bool :=
  (48 ≤ c.toNat && c.toNat ≤ 57) || (97 ≤ c.toNat && c.toNat ≤ 102)

-- ---------------------------------------------------------------------------
-- Lemmas about the broadcast loop
-- ---------------------------------------------------------------------------

theorem broadcastLoop_sent (bad : Nat → Bool) (f : OutFrame) (l : List Nat) :
    (broadcastLoop bad f l).1 =
      (l.filter (fun v => !bad v)).map (fun v => Sent.toViewer v f) := by
  induction l with
  | nil => rfl
  | cons v rest ih =>
      simp only [broadcastLoop, List.filter_cons]
      cases h : bad v <;> simp [h, ih]

theorem broadcastLoop_dead (bad : Nat → Bool) (f : OutFrame) (l : List Nat) :
    (broadcastLoop bad f l).2 = l.filter bad := by
  induction l with
  | nil => rfl
  | cons v rest ih =>
      simp only [broadcastLoop, List.filter_cons]
      cases h : bad v <;> simp [h, ih]

theorem broadcastToViewers_sent (bad : Nat → Bool) (s : Session) (f : OutFrame) :
    (broadcastToViewers bad s f).2 =
      (s.viewers.filter (fun v => !bad v)).map (fun v => Sent.toViewer v f) := by
  simp [broadcastToViewers, broadcastLoop_sent]

theorem contains_filter_eq (bad : Nat → Bool) (l : List Nat) (v : Nat)
    (hv : v ∈ l) : (l.filter bad).contains v = bad v := by
  cases h : bad v
  · have hnm : v ∉ l.filter bad := by simp [List.mem_filter, h]
    exact Bool.eq_false_iff.mpr fun hc => hnm (List.elem_iff.mp hc)
  · have hm : v ∈ l.filter bad := by simp [List.mem_filter, h, hv]
    exact List.elem_eq_true_of_mem hm

theorem broadcastToViewers_viewers (bad : Nat → Bool) (s : Session) (f : OutFrame) :
    (broadcastToViewers bad s f).1.viewers =
      s.viewers.filter (fun v => !bad v) := by
  simp only [broadcastToViewers, broadcastLoop_dead]
  apply List.filter_congr
  intro v hv
  rw [contains_filter_eq bad s.viewers v hv]

theorem broadcastToViewers_fields (bad : Nat → Bool) (s : Session) (f : OutFrame) :
    (broadcastToViewers bad s f).1.alive = s.alive ∧
    (broadcastToViewers bad s f).1.agent = s.agent ∧
    (broadcastToViewers bad s f).1.buf = s.buf ∧
    (broadcastToViewers bad s f).1.cols = s.cols ∧
    (broadcastToViewers bad s f).1.rows = s.rows ∧
    (broadcastToViewers bad s f).1.name = s.name ∧
    (broadcastToViewers bad s f).1.id = s.id := by
  simp [broadcastToViewers]

-- ---------------------------------------------------------------------------
-- C9: broadcast fan-out policy
-- ---------------------------------------------------------------------------

/-- C9: `broadcast_to_viewers` iterates a snapshot of the viewer set and
attempts one send per viewer: every viewer whose send does not raise
receives the frame (a failure at one viewer never suppresses the attempt at
another), the viewers removed are exactly those whose send raised, each
frame reaches a given viewer at most once (no retry), and nothing else is
sent. -/
theorem broadcast_fanout_c9 (bad : Nat → Bool) (s : Session) (f : OutFrame)
    (hnd : s.viewers.Nodup) :
    (∀ v ∈ s.viewers, bad v = false →
        Sent.toViewer v f ∈ (broadcastToViewers bad s f).2) ∧
    (∀ v, v ∈ (broadcastToViewers bad s f).1.viewers ↔
        v ∈ s.viewers ∧ bad v = false) ∧
    (∀ v, ((broadcastToViewers bad s f).2.countP
        (fun x => match x with
          | Sent.toViewer w g => w == v && g == f
          | _ => false)) ≤ 1) ∧
    (∀ x ∈ (broadcastToViewers bad s f).2,
        ∃ v ∈ s.viewers, bad v = false ∧ x = Sent.toViewer v f) := by
  refine ⟨?_, ?_, ?_, ?_⟩
  · intro v hv hb
    rw [broadcastToViewers_sent]
    exact List.mem_map_of_mem _ (List.mem_filter.mpr ⟨hv, by simp [hb]⟩)
  · intro v
    rw [broadcastToViewers_viewers]
    simp [List.mem_filter]
  · intro v
    rw [broadcastToViewers_sent, List.countP_map]
    have heq : ((fun x => match x with
        | Sent.toViewer w g => w == v && g == f
        | _ => false) ∘ (fun w => Sent.toViewer w f)) = fun w => w == v := by
      funext w
      simp [Function.comp]
    rw [heq]
    calc (s.viewers.filter (fun w => !bad w)).countP (fun w => w == v)
        = (s.viewers.filter (fun w => !bad w)).count v := rfl
      _ ≤ s.viewers.count v := List.Sublist.count_le (List.filter_sublist _) v
      _ ≤ 1 := List.nodup_iff_count_le_one.mp hnd v
  · intro x hx
    rw [broadcastToViewers_sent] at hx
    obtain ⟨v, hv, rfl⟩ := List.mem_map.mp hx
    have hm := List.mem_filter.mp hv
    exact ⟨v, hm.1, by simpa using hm.2, rfl⟩

/-- Witness for C9 at a concrete session with viewers `[1, 2, 3]` where the
send to viewer 2 raises. -/
theorem broadcast_fanout_c9_witness :
    Sent.toViewer 1 OutFrame.pong ∈
      (broadcastToViewers (fun w => w == 2)
        ⟨"s", "h", some 0, [1, 2, 3], [], 220, 50, true⟩ OutFrame.pong).2 ∧
    ¬ 2 ∈ (broadcastToViewers (fun w => w == 2)
        ⟨"s", "h", some 0, [1, 2, 3], [], 220, 50, true⟩ OutFrame.pong).1.viewers := by
  have h := broadcast_fanout_c9 (fun w => w == 2)
    ⟨"s", "h", some 0, [1, 2, 3], [], 220, 50, true⟩ OutFrame.pong (by decide)
  refine ⟨h.1 1 (by decide) (by decide), fun hm => ?_⟩
  simpa using (h.2.1 2).mp hm

-- ---------------------------------------------------------------------------
-- C3: scrollback cap
-- ---------------------------------------------------------------------------

/-- C3: after every `append_output` the buffer holds at most
`SCROLLBACK_BYTES = 65536` bytes; an overflowing append discards exactly the
overflow from the front of the concatenation; appending 70 000 bytes of `a`
to an empty buffer leaves exactly 65 536 bytes of `a`, and a late joiner
whose session carries that buffer gets it as its first `output` frame. -/
theorem scrollback_cap_c3 (buf chunk : List Byte) :
    (appendOutput buf chunk).length ≤ SCROLLBACK_BYTES ∧
    (SCROLLBACK_BYTES < buf.length + chunk.length →
      appendOutput buf chunk =
        (buf ++ chunk).drop (buf.length + chunk.length - SCROLLBACK_BYTES)) ∧
    appendOutput [] (List.replicate 70000 97) = List.replicate 65536 97 ∧
    (∀ (s : Session) (v : Nat), s.buf = List.replicate 65536 97 →
      ((viewerJoin s v).2).head? =
        some (Sent.toViewer v (OutFrame.output (List.replicate 65536 97)))) := by
  refine ⟨?_, ?_, ?_, ?_⟩
  · simp only [appendOutput, SCROLLBACK_BYTES]
    split
    · rename_i hpos
      rw [List.length_drop]
      simp only [List.length_append] at hpos ⊢
      omega
    · rename_i hneg
      simp only [not_lt, List.length_append] at hneg ⊢
      omega
  · intro hlt
    simp only [SCROLLBACK_BYTES] at hlt
    simp only [appendOutput, SCROLLBACK_BYTES]
    have harg : ((((buf ++ chunk).length : Int)) - ((64 * 1024 : Nat) : Int)).toNat
        = buf.length + chunk.length - 64 * 1024 := by
      simp only [List.length_append]
      omega
    rw [if_pos, harg]
    simp only [List.length_append]
    omega
  · simp only [appendOutput, SCROLLBACK_BYTES, List.nil_append,
      List.length_replicate]
    norm_num
    omega
  · intro s v hbuf
    have hne : s.buf.isEmpty = false := by
      rw [hbuf]
      show (List.replicate (65535 + 1) (97 : Byte)).isEmpty = false
      rw [List.replicate_succ]
      rfl
    rw [← hbuf]
    simp [viewerJoin, hne]

/-- Witness for C3: the overflow branch at an empty buffer and a 70 000-byte
chunk, and the late-joiner replay at a session holding the capped buffer. -/
theorem scrollback_cap_c3_witness :
    appendOutput [] (List.replicate 70000 97) =
      (([] : List Byte) ++ List.replicate 70000 97).drop
        (List.length ([] : List Byte) +
          (List.replicate (α := Byte) 70000 97).length - SCROLLBACK_BYTES) ∧
    ((viewerJoin ⟨"e4b2c9a1f0", "host", none, [], List.replicate 65536 97,
        220, 50, false⟩ 7).2).head? =
      some (Sent.toViewer 7 (OutFrame.output (List.replicate 65536 97))) := by
  have h : SCROLLBACK_BYTES <
      List.length ([] : List Byte) + (List.replicate (α := Byte) 70000 97).length := by
    rw [List.length_replicate]
    norm_num [SCROLLBACK_BYTES]
  exact ⟨(scrollback_cap_c3 [] (List.replicate 70000 97)).2.1 h,
    (scrollback_cap_c3 [] []).2.2.2 _ 7 rfl⟩

-- ---------------------------------------------------------------------------
-- C10: terminal-size floors
-- ---------------------------------------------------------------------------

/-- C10: `_get_terminal_size` clamps a successful window-size query up to
`max(rows, 24)` and `max(cols, 80)` and returns `(24, 220)` on failure, so
its result — and hence the dimensions in the agent's `register` frame —
never falls below 24 rows or 80 columns. -/
theorem terminal_floor_c10 (query : Option (Nat × Nat))
    (hostname shell : String) :
    24 ≤ (getTerminalSize query).1 ∧ 80 ≤ (getTerminalSize query).2 ∧
    (∀ rows cols, query = some (rows, cols) →
        getTerminalSize query = (max rows 24, max cols 80)) ∧
    (query = none → getTerminalSize query = (24, 220)) ∧
    (registerFrame hostname shell query).getD "rows" JVal.null =
      JVal.num ((getTerminalSize query).1 : Int) ∧
    (registerFrame hostname shell query).getD "cols" JVal.null =
      JVal.num ((getTerminalSize query).2 : Int) := by
  obtain _ | ⟨rows, cols⟩ := query
  · refine ⟨by norm_num [getTerminalSize], by norm_num [getTerminalSize],
      ?_, fun _ => rfl, rfl, rfl⟩
    intro r c h
    exact Option.noConfusion h
  · refine ⟨le_max_right _ _, le_max_right _ _, ?_, ?_, rfl, rfl⟩
    · intro r c h
      have h2 : (rows, cols) = (r, c) := Option.some.inj h
      rw [Prod.mk.injEq] at h2
      obtain ⟨rfl, rfl⟩ := h2
      rfl
    · intro h
      exact Option.noConfusion h

-- ---------------------------------------------------------------------------
-- C8: viewer ping with and without a reachable agent
-- ---------------------------------------------------------------------------

theorem sendToAgent_gone (agentOk : Bool) (s : Session) (m : JVal)
    (h : s.agent = none ∨ s.alive = false ∨ agentOk = false) :
    sendToAgent agentOk s m = (false, []) := by
  rcases h with h | h | h
  · simp [sendToAgent, h]
  · simp [sendToAgent, h]
  · subst h
    simp only [sendToAgent, Bool.false_eq_true, if_false]
    split <;> rfl

theorem sendToAgent_live (s : Session) (m : JVal) (ch : Nat)
    (hag : s.agent = some ch) (hal : s.alive = true) :
    sendToAgent true s m = (true, [Sent.toAgent m]) := by
  simp [sendToAgent, hag, hal]

/-- C8: on a viewer `ping`, when the agent is unreachable (no agent channel,
session not alive, or the forward raises) the server sends one synthesized
`pong` straight back to the pinging viewer and forwards nothing; when the
agent is reachable the ping is forwarded and no pong is synthesized. -/
theorem ping_pong_c8 (agentOk : Bool) (bad : Nat → Bool) (s : Session)
    (v : Nat) (hbv : bad v = false) :
    ((s.agent = none ∨ s.alive = false ∨ agentOk = false) →
        processViewerFrame agentOk bad s v (some pingMsg) =
          ⟨s, [Sent.toViewer v OutFrame.pong], false⟩) ∧
    (∀ ch, s.agent = some ch → s.alive = true → agentOk = true →
        processViewerFrame agentOk bad s v (some pingMsg) =
          ⟨s, [Sent.toAgent pingMsg], false⟩) := by
  constructor
  · intro hgone
    simp [processViewerFrame, pingMsg, JVal.truthy, JVal.isStrEq,
      JVal.getItem, sendToAgent_gone agentOk s _ hgone, hbv]
  · intro ch hag hal hok
    subst hok
    simp [processViewerFrame, pingMsg, JVal.truthy, JVal.isStrEq,
      JVal.getItem, sendToAgent_live s _ ch hag hal]

/-- Witness for C8: a detached session answers the ping itself; a live
session forwards it. -/
theorem ping_pong_c8_witness :
    processViewerFrame false (fun _ => false)
        ⟨"sid0", "h", none, [7], [], 220, 50, false⟩ 7 (some pingMsg) =
      ⟨⟨"sid0", "h", none, [7], [], 220, 50, false⟩,
        [Sent.toViewer 7 OutFrame.pong], false⟩ ∧
    processViewerFrame true (fun _ => false)
        ⟨"sid1", "h", some 3, [7], [], 220, 50, true⟩ 7 (some pingMsg) =
      ⟨⟨"sid1", "h", some 3, [7], [], 220, 50, true⟩,
        [Sent.toAgent pingMsg], false⟩ :=
  ⟨(ping_pong_c8 false (fun _ => false) _ 7 rfl).1 (Or.inl rfl),
   (ping_pong_c8 true (fun _ => false) _ 7 rfl).2 3 rfl rfl rfl⟩

-- ---------------------------------------------------------------------------
-- C7: resize propagation
-- ---------------------------------------------------------------------------

/-- C7: processing a viewer `resize` frame with integer fields on a session
with a reachable agent updates the session's `cols`/`rows` to the frame's
values, forwards the frame to the agent — which applies it to the PTY
window size when the dimensions fit a `HHHH` pack — and broadcasts a `meta`
frame carrying the new dimensions to every (other) viewer whose channel
works. -/
theorem resize_c7 (bad : Nat → Bool) (s : Session) (v : Nat) (c r : Int)
    (ch : Nat) (hag : s.agent = some ch) (hal : s.alive = true) :
    (processViewerFrame true bad s v (some (resizeMsg c r))).sess.cols = c ∧
    (processViewerFrame true bad s v (some (resizeMsg c r))).sess.rows = r ∧
    (processViewerFrame true bad s v (some (resizeMsg c r))).fatal = false ∧
    Sent.toAgent (resizeMsg c r) ∈
      (processViewerFrame true bad s v (some (resizeMsg c r))).sent ∧
    (∀ w ∈ s.viewers, bad w = false →
        Sent.toViewer w (OutFrame.meta s.name s.viewers.length c r) ∈
          (processViewerFrame true bad s v (some (resizeMsg c r))).sent) ∧
    (∀ (pty : Int × Int) (regR regC : Int) (ioctlOk : Bool),
        agentApplyResize pty regR regC (resizeMsg c r) ioctlOk =
          setTerminalSize pty r c ioctlOk) ∧
    (∀ (pty : Int × Int) (regR regC : Int), 0 ≤ r → r < 65536 → 0 ≤ c →
        c < 65536 →
        agentApplyResize pty regR regC (resizeMsg c r) true = (r, c)) := by
  have hagM : ({ s with cols := c, rows := r } : Session).agent = some ch := hag
  have halM : ({ s with cols := c, rows := r } : Session).alive = true := hal
  have heq : processViewerFrame true bad s v (some (resizeMsg c r)) =
      ⟨(broadcastToViewers bad { s with cols := c, rows := r }
          (metaPayload { s with cols := c, rows := r })).1,
        [Sent.toAgent (resizeMsg c r)] ++
          (broadcastToViewers bad { s with cols := c, rows := r }
            (metaPayload { s with cols := c, rows := r })).2,
        false⟩ := by
    have l1 : List.lookup "cols" [("type", JVal.str "resize"),
        ("cols", JVal.num c), ("rows", JVal.num r)] = some (JVal.num c) := rfl
    have l2 : List.lookup "rows" [("type", JVal.str "resize"),
        ("cols", JVal.num c), ("rows", JVal.num r)] = some (JVal.num r) := rfl
    simp [processViewerFrame, resizeMsg, JVal.truthy, JVal.isStrEq,
      JVal.getItem, JVal.getD, pyInt, l1, l2,
      sendToAgent_live { s with cols := c, rows := r } _ ch hagM halM]
  refine ⟨?_, ?_, ?_, ?_, ?_, ?_, ?_⟩
  · rw [heq]
    exact (broadcastToViewers_fields _ _ _).2.2.2.1
  · rw [heq]
    exact (broadcastToViewers_fields _ _ _).2.2.2.2.1
  · rw [heq]
  · rw [heq]
    exact List.mem_append_left _ (List.mem_singleton.mpr rfl)
  · intro w hw hbw
    rw [heq]
    refine List.mem_append_right _ ?_
    rw [broadcastToViewers_sent]
    exact List.mem_map_of_mem _ (List.mem_filter.mpr ⟨hw, by simp [hbw]⟩)
  · intro pty regR regC ioctlOk
    rfl
  · intro pty regR regC hr0 hr1 hc0 hc1
    show setTerminalSize pty r c true = (r, c)
    rw [setTerminalSize, if_pos ⟨hr0, hr1, hc0, hc1, rfl⟩]

/-- Witness for C7: a live two-viewer session resized to 100×40. -/
theorem resize_c7_witness :
    (processViewerFrame true (fun _ => false)
        ⟨"sid2", "h", some 3, [7, 9], [], 220, 50, true⟩ 7
        (some (resizeMsg 100 40))).sess.cols = 100 ∧
    Sent.toViewer 9 (OutFrame.meta "h" 2 100 40) ∈
      (processViewerFrame true (fun _ => false)
        ⟨"sid2", "h", some 3, [7, 9], [], 220, 50, true⟩ 7
        (some (resizeMsg 100 40))).sent ∧
    agentApplyResize (50, 220) 50 220 (resizeMsg 100 40) true = (40, 100) := by
  have h := resize_c7 (fun _ => false)
    ⟨"sid2", "h", some 3, [7, 9], [], 220, 50, true⟩ 7 100 40 3 rfl rfl
  exact ⟨h.1, h.2.2.2.2.1 9 (by decide) rfl,
    h.2.2.2.2.2.2 (50, 220) 50 220 (by norm_num) (by norm_num) (by norm_num)
      (by norm_num)⟩

-- ---------------------------------------------------------------------------
-- Shape lemmas for the relay loops
-- ---------------------------------------------------------------------------

theorem sendToAgent_sent (agentOk : Bool) (s : Session) (m : JVal) :
    (sendToAgent agentOk s m).2 = [] ∨
      (sendToAgent agentOk s m).2 = [Sent.toAgent m] := by
  unfold sendToAgent
  split
  · exact Or.inl rfl
  · split
    · exact Or.inr rfl
    · exact Or.inl rfl

/-- One viewer-loop iteration never touches `alive`, `agent`, `buf`, `name`
or `id`, and everything it sends is an agent forward, a `pong` to the
processing viewer, or a `meta` frame — never an `output` or `disconnect`
frame. -/
theorem processViewerFrame_shape (agentOk : Bool) (bad : Nat → Bool)
    (s : Session) (v : Nat) (raw : Option JVal) :
    ((processViewerFrame agentOk bad s v raw).sess.alive = s.alive ∧
     (processViewerFrame agentOk bad s v raw).sess.agent = s.agent ∧
     (processViewerFrame agentOk bad s v raw).sess.buf = s.buf ∧
     (processViewerFrame agentOk bad s v raw).sess.name = s.name ∧
     (processViewerFrame agentOk bad s v raw).sess.id = s.id) ∧
    (∀ x ∈ (processViewerFrame agentOk bad s v raw).sent,
      Sent.isOutputFrame x = false ∧ Sent.isDisconnectFrame x = false) := by
  rcases raw with _ | msg
  · exact ⟨⟨rfl, rfl, rfl, rfl, rfl⟩, fun x hx => absurd hx (List.not_mem_nil x)⟩
  unfold processViewerFrame
  dsimp only
  split
  · exact ⟨⟨rfl, rfl, rfl, rfl, rfl⟩, fun x hx => absurd hx (List.not_mem_nil x)⟩
  split
  · exact ⟨⟨rfl, rfl, rfl, rfl, rfl⟩, fun x hx => absurd hx (List.not_mem_nil x)⟩
  rename_i t htype
  split
  · -- ping branch
    rcases hsend : sendToAgent agentOk s (JVal.obj [("type", JVal.str "ping")])
      with ⟨ok, sentA⟩
    have hsa := sendToAgent_sent agentOk s (JVal.obj [("type", JVal.str "ping")])
    rw [hsend] at hsa
    dsimp only at hsa
    dsimp only
    have hmem : ∀ x ∈ sentA,
        Sent.isOutputFrame x = false ∧ Sent.isDisconnectFrame x = false := by
      rcases hsa with h | h <;> subst h
      · exact fun x hx => absurd hx (List.not_mem_nil x)
      · intro x hx
        rw [List.mem_singleton.mp hx]
        exact ⟨rfl, rfl⟩
    split
    · exact ⟨⟨rfl, rfl, rfl, rfl, rfl⟩, hmem⟩
    split
    · exact ⟨⟨rfl, rfl, rfl, rfl, rfl⟩, hmem⟩
    · refine ⟨⟨rfl, rfl, rfl, rfl, rfl⟩, fun x hx => ?_⟩
      rcases List.mem_append.mp hx with h | h
      · exact hmem x h
      · rw [List.mem_singleton.mp h]
        exact ⟨rfl, rfl⟩
  split
  · -- input branch
    rcases hsend : sendToAgent agentOk s msg with ⟨ok, sentA⟩
    have hsa := sendToAgent_sent agentOk s msg
    rw [hsend] at hsa
    dsimp only at hsa
    dsimp only
    refine ⟨⟨rfl, rfl, rfl, rfl, rfl⟩, fun x hx => ?_⟩
    rcases hsa with h | h <;> subst h
    · exact absurd hx (List.not_mem_nil x)
    · rw [List.mem_singleton.mp hx]
      exact ⟨rfl, rfl⟩
  split
  · -- resize branch
    split
    · exact ⟨⟨rfl, rfl, rfl, rfl, rfl⟩, fun x hx => absurd hx (List.not_mem_nil x)⟩
    rename_i c hc
    split
    · exact ⟨⟨rfl, rfl, rfl, rfl, rfl⟩, fun x hx => absurd hx (List.not_mem_nil x)⟩
    rename_i r hr
    rcases hsend : sendToAgent agentOk { s with cols := c, rows := r } msg
      with ⟨ok, sentA⟩
    have hsa := sendToAgent_sent agentOk { s with cols := c, rows := r } msg
    rw [hsend] at hsa
    dsimp only at hsa
    dsimp only
    constructor
    · refine ⟨?_, ?_, ?_, ?_, ?_⟩ <;>
        simp [broadcastToViewers]
    · intro x hx
      rcases List.mem_append.mp hx with h | h
      · rcases hsa with hs | hs <;> subst hs
        · exact absurd h (List.not_mem_nil x)
        · rw [List.mem_singleton.mp h]
          exact ⟨rfl, rfl⟩
      · rw [broadcastToViewers_sent] at h
        obtain ⟨w, _, rfl⟩ := List.mem_map.mp h
        exact ⟨rfl, rfl⟩
  · -- unknown type
    exact ⟨⟨rfl, rfl, rfl, rfl, rfl⟩, fun x hx => absurd hx (List.not_mem_nil x)⟩

/-- One agent-loop iteration never touches `alive`, `agent`, `name`, `id`,
`cols` or `rows`. -/
theorem processAgentFrame_preserves (bad : Nat → Bool) (s : Session)
    (raw : Option JVal) :
    (processAgentFrame bad s raw).sess.alive = s.alive ∧
    (processAgentFrame bad s raw).sess.agent = s.agent ∧
    (processAgentFrame bad s raw).sess.name = s.name ∧
    (processAgentFrame bad s raw).sess.id = s.id ∧
    (processAgentFrame bad s raw).sess.cols = s.cols ∧
    (processAgentFrame bad s raw).sess.rows = s.rows := by
  rcases raw with _ | msg
  · exact ⟨rfl, rfl, rfl, rfl, rfl, rfl⟩
  unfold processAgentFrame
  dsimp only
  split
  · exact ⟨rfl, rfl, rfl, rfl, rfl, rfl⟩
  split
  · exact ⟨rfl, rfl, rfl, rfl, rfl, rfl⟩
  split
  · split
    · exact ⟨rfl, rfl, rfl, rfl, rfl, rfl⟩
    · refine ⟨?_, ?_, ?_, ?_, ?_, ?_⟩ <;> simp [broadcastToViewers]
    · exact ⟨rfl, rfl, rfl, rfl, rfl, rfl⟩
  split
  · refine ⟨?_, ?_, ?_, ?_, ?_, ?_⟩ <;> simp [broadcastToViewers]
  · exact ⟨rfl, rfl, rfl, rfl, rfl, rfl⟩

/-- A linearised viewer-frame run keeps `alive`/`agent` intact and sends no
`output` or `disconnect` frames. -/
theorem processViewerFrames_shape (agentOk : Bool) (bad : Nat → Bool)
    (frames : List (Nat × Option JVal)) :
    ∀ s : Session,
      ((processViewerFrames agentOk bad s frames).1.alive = s.alive ∧
       (processViewerFrames agentOk bad s frames).1.agent = s.agent) ∧
      ∀ x ∈ (processViewerFrames agentOk bad s frames).2,
        Sent.isOutputFrame x = false ∧ Sent.isDisconnectFrame x = false := by
  induction frames with
  | nil =>
      intro s
      exact ⟨⟨rfl, rfl⟩, fun x hx => absurd hx (List.not_mem_nil x)⟩
  | cons p rest ih =>
      intro s
      rcases p with ⟨v, raw⟩
      have h1 := processViewerFrame_shape agentOk bad s v raw
      have h2 := ih (processViewerFrame agentOk bad s v raw).sess
      simp only [processViewerFrames]
      constructor
      · exact ⟨h2.1.1.trans h1.1.1, h2.1.2.trans h1.1.2.1⟩
      · intro x hx
        rcases List.mem_append.mp hx with h | h
        · exact h1.2 x h
        · exact h2.2 x h

-- ---------------------------------------------------------------------------
-- C1: traffic after the agent disconnect is recorded
-- ---------------------------------------------------------------------------

/-- C1 (amended): `_mark_agent_disconnected` leaves the session dead with no
agent channel and broadcasts at most one `disconnect` frame per viewer; any
sequence of viewer frames processed afterwards keeps the session dead and
sends no further `output` frame and no further `disconnect` frame — though
a viewer `ping` still elicits a synthesized `pong` and a viewer `resize`
still triggers a `meta` broadcast. -/
theorem after_disconnect_c1 (agentOk : Bool) (bad bad2 : Nat → Bool)
    (s : Session) (frames : List (Nat × Option JVal))
    (hnd : s.viewers.Nodup) :
    (markAgentDisconnected bad2 s).1.alive = false ∧
    (markAgentDisconnected bad2 s).1.agent = none ∧
    (∀ v, (markAgentDisconnected bad2 s).2.countP (Sent.isDisconnectTo v) ≤ 1) ∧
    (∀ s' : Session,
      (∀ x ∈ (processViewerFrames agentOk bad s' frames).2,
        Sent.isOutputFrame x = false ∧ Sent.isDisconnectFrame x = false) ∧
      (s'.alive = false → s'.agent = none →
        (processViewerFrames agentOk bad s' frames).1.alive = false ∧
        (processViewerFrames agentOk bad s' frames).1.agent = none)) := by
  refine ⟨by simp [markAgentDisconnected, broadcastToViewers],
    by simp [markAgentDisconnected, broadcastToViewers], ?_, ?_⟩
  · intro v
    have hsent : (markAgentDisconnected bad2 s).2 =
        (s.viewers.filter (fun w => !bad2 w)).map
          (fun w => Sent.toViewer w
            (OutFrame.disconnect ("Agent '" ++ s.name ++ "' disconnected"))) := by
      simp [markAgentDisconnected, broadcastToViewers_sent]
    rw [hsent, List.countP_map]
    have heq : ((Sent.isDisconnectTo v) ∘
        (fun w => Sent.toViewer w
          (OutFrame.disconnect ("Agent '" ++ s.name ++ "' disconnected")))) =
        fun w => w == v := by
      funext w
      simp [Function.comp, Sent.isDisconnectTo]
    rw [heq]
    calc (s.viewers.filter (fun w => !bad2 w)).countP (fun w => w == v)
        = (s.viewers.filter (fun w => !bad2 w)).count v := rfl
      _ ≤ s.viewers.count v := List.Sublist.count_le (List.filter_sublist _) v
      _ ≤ 1 := List.nodup_iff_count_le_one.mp hnd v
  · intro s'
    have h := processViewerFrames_shape agentOk bad frames s'
    refine ⟨h.2, fun hal hag => ?_⟩
    exact ⟨h.1.1.trans hal, h.1.2.trans hag⟩

/-- Witness for C1 at a one-viewer session: the disconnect broadcast and one
subsequent ping frame. -/
theorem after_disconnect_c1_witness :
    (markAgentDisconnected (fun _ => false)
        ⟨"sidX", "h", some 3, [7], [], 220, 50, true⟩).1.alive = false ∧
    (markAgentDisconnected (fun _ => false)
        ⟨"sidX", "h", some 3, [7], [], 220, 50, true⟩).2.countP
        (Sent.isDisconnectTo 7) ≤ 1 ∧
    (∀ x ∈ (processViewerFrames false (fun _ => false)
        ⟨"sidX", "h", none, [7], [], 220, 50, false⟩
        [(7, some pingMsg)]).2,
      Sent.isOutputFrame x = false ∧ Sent.isDisconnectFrame x = false) := by
  have h := after_disconnect_c1 false (fun _ => false) (fun _ => false)
    ⟨"sidX", "h", some 3, [7], [], 220, 50, true⟩ [(7, some pingMsg)]
    (by decide)
  exact ⟨h.1, h.2.2.1 7,
    (h.2.2.2 ⟨"sidX", "h", none, [7], [], 220, 50, false⟩).1⟩

/-- Counterexample for C1 as stated: on a session whose agent disconnect is
already recorded (`alive = false`, `agent = none`), a viewer `resize` frame
still triggers a `meta` frame to the viewers and a viewer `ping` still
elicits a `pong` — the claim asserts neither is ever sent after
disconnect. -/
theorem after_disconnect_c1_counterexample :
    (⟨"sid", "h", none, [7], [], 220, 50, false⟩ : Session).alive = false ∧
    (⟨"sid", "h", none, [7], [], 220, 50, false⟩ : Session).agent = none ∧
    (processViewerFrames false (fun _ => false)
        ⟨"sid", "h", none, [7], [], 220, 50, false⟩
        [(7, some (resizeMsg 100 40)), (7, some pingMsg)]).2 =
      [Sent.toViewer 7 (OutFrame.meta "h" 1 100 40),
       Sent.toViewer 7 OutFrame.pong] :=
  ⟨rfl, rfl, rfl⟩

-- ---------------------------------------------------------------------------
-- C2: viewer join — replay and meta
-- ---------------------------------------------------------------------------

theorem pySetAdd_mem (l : List Nat) (v : Nat) : v ∈ pySetAdd l v := by
  unfold pySetAdd
  split
  · rename_i h
    exact List.elem_iff.mp h
  · exact List.mem_append_right _ (List.mem_singleton.mpr rfl)

/-- C2 (amended): a viewer joining an existing session is sent the scrollback
as a single `output` frame only when the scrollback is nonempty (an empty
scrollback produces no replay frame at all), then one `meta` frame whose
`viewers` field counts the viewers present before the join (0 for the first
viewer), and only then is it added to the viewer set — so a live `output`
frame the agent produces after the join reaches it strictly after replay
and meta. -/
theorem viewer_join_c2 (s : Session) (v : Nat) (bad : Nat → Bool)
    (txt : String) (hbv : bad v = false) :
    (viewerJoin s v).2 =
      (if s.buf.isEmpty then []
        else [Sent.toViewer v (OutFrame.output s.buf)]) ++
        [Sent.toViewer v
          (OutFrame.meta s.name s.viewers.length s.cols s.rows)] ∧
    v ∈ (viewerJoin s v).1.viewers ∧
    Sent.toViewer v (OutFrame.output (encodeUtf8 txt)) ∈
      (processAgentFrame bad (viewerJoin s v).1 (some (outputMsg txt))).sent := by
  refine ⟨rfl, pySetAdd_mem s.viewers v, ?_⟩
  have l1 : List.lookup "type" [("type", JVal.str "output"),
      ("data", JVal.str txt)] = some (JVal.str "output") := rfl
  have l2 : List.lookup "data" [("type", JVal.str "output"),
      ("data", JVal.str txt)] = some (JVal.str txt) := rfl
  have heq : processAgentFrame bad (viewerJoin s v).1 (some (outputMsg txt)) =
      ⟨(broadcastToViewers bad
          { (viewerJoin s v).1 with
            buf := appendOutput (viewerJoin s v).1.buf (encodeUtf8 txt) }
          (OutFrame.output (encodeUtf8 txt))).1,
        (broadcastToViewers bad
          { (viewerJoin s v).1 with
            buf := appendOutput (viewerJoin s v).1.buf (encodeUtf8 txt) }
          (OutFrame.output (encodeUtf8 txt))).2,
        false⟩ := by
    simp [processAgentFrame, outputMsg, JVal.truthy, JVal.getItem,
      JVal.isStrEq, l1, l2]
  rw [heq]
  show Sent.toViewer v (OutFrame.output (encodeUtf8 txt)) ∈
    (broadcastToViewers bad _ (OutFrame.output (encodeUtf8 txt))).2
  rw [broadcastToViewers_sent]
  exact List.mem_map_of_mem _
    (List.mem_filter.mpr ⟨pySetAdd_mem s.viewers v, by simp [hbv]⟩)

/-- Witness for C2 at a session with nonempty scrollback and one prior
viewer, followed by a live agent output frame. -/
theorem viewer_join_c2_witness :
    (viewerJoin ⟨"sidY", "h", some 3, [9], [104, 105], 220, 50, true⟩ 7).2 =
      [Sent.toViewer 7 (OutFrame.output [104, 105]),
       Sent.toViewer 7 (OutFrame.meta "h" 1 220 50)] ∧
    Sent.toViewer 7 (OutFrame.output (encodeUtf8 "ok")) ∈
      (processAgentFrame (fun _ => false)
        (viewerJoin ⟨"sidY", "h", some 3, [9], [104, 105], 220, 50, true⟩ 7).1
        (some (outputMsg "ok"))).sent := by
  have h := viewer_join_c2 ⟨"sidY", "h", some 3, [9], [104, 105], 220, 50, true⟩
    7 (fun _ => false) "ok" rfl
  exact ⟨h.1, h.2.2⟩

/-- Counterexample for C2 as stated: the first viewer joining a fresh
session (empty scrollback, no viewers) receives no `output` frame at all —
the claim demands an empty replay frame — and the `meta` frame it receives
reports `viewers = 0`, not 1, because the server builds `_meta_payload`
before adding the joiner to the set. -/
theorem viewer_join_c2_counterexample :
    (createSession 0 "myhost" 50 220).buf = [] ∧
    (createSession 0 "myhost" 50 220).viewers = [] ∧
    (viewerJoin (createSession 0 "myhost" 50 220) 1).2 =
      [Sent.toViewer 1 (OutFrame.meta "myhost" 0 220 50)] :=
  ⟨rfl, rfl, rfl⟩

-- ---------------------------------------------------------------------------
-- C4: alive flag vs agent channel
-- ---------------------------------------------------------------------------

theorem markAgentDisconnected_dead (bad : Nat → Bool) (s : Session) :
    (markAgentDisconnected bad s).1.alive = false ∧
    (markAgentDisconnected bad s).1.agent = none := by
  constructor <;> simp [markAgentDisconnected, broadcastToViewers]

/-- C4 (amended): `alive == (agent_channel ≠ null)` holds once the
registration handshake has attached the agent channel, and it is preserved
by every subsequent session operation; moreover `alive` is monotone — once
false, no operation ever makes it true again.  (Immediately after the bare
`create_session` the invariant does not yet hold: see the
counterexample.) -/
theorem alive_invariant_c4 (n : Nat) (name : String) (rows cols : Int)
    (ch : Nat) (s : Session) (op : ServerOp)
    (hinv : s.alive = s.agent.isSome) :
    ((registerAgent n name rows cols ch).alive =
      (registerAgent n name rows cols ch).agent.isSome) ∧
    (applyOp s op).alive = (applyOp s op).agent.isSome ∧
    (∀ (s' : Session) (op' : ServerOp), s'.alive = false →
      (applyOp s' op').alive = false) := by
  refine ⟨rfl, ?_, ?_⟩
  · cases op with
    | agentFrame bad raw =>
        have h := processAgentFrame_preserves bad s raw
        exact (h.1.trans hinv).trans (congrArg Option.isSome h.2.1).symm
    | viewerFrame agentOk bad v raw =>
        have h := processViewerFrame_shape agentOk bad s v raw
        exact (h.1.1.trans hinv).trans (congrArg Option.isSome h.1.2.1).symm
    | viewerJoinOp v => exact hinv
    | viewerLeave v => exact hinv
    | agentClose bad =>
        have h := markAgentDisconnected_dead bad s
        show (markAgentDisconnected bad s).1.alive =
          (markAgentDisconnected bad s).1.agent.isSome
        rw [h.1, h.2]
        rfl
  · intro s' op' hdead
    cases op' with
    | agentFrame bad raw =>
        exact (processAgentFrame_preserves bad s' raw).1.trans hdead
    | viewerFrame agentOk bad v raw =>
        exact (processViewerFrame_shape agentOk bad s' v raw).1.1.trans hdead
    | viewerJoinOp v => exact hdead
    | viewerLeave v => exact hdead
    | agentClose bad => exact (markAgentDisconnected_dead bad s').1

/-- Witness for C4: a freshly registered session closed once, and a join on
a dead session. -/
theorem alive_invariant_c4_witness :
    (applyOp (registerAgent 0 "h" 50 220 3)
        (ServerOp.agentClose (fun _ => false))).alive =
      (applyOp (registerAgent 0 "h" 50 220 3)
        (ServerOp.agentClose (fun _ => false))).agent.isSome ∧
    (applyOp ⟨"s0", "h", none, [], [], 220, 50, false⟩
        (ServerOp.viewerJoinOp 7)).alive = false := by
  have h := alive_invariant_c4 0 "h" 50 220 3 (registerAgent 0 "h" 50 220 3)
    (ServerOp.agentClose (fun _ => false)) rfl
  exact ⟨h.2.1, h.2.2 ⟨"s0", "h", none, [], [], 220, 50, false⟩
    (ServerOp.viewerJoinOp 7) rfl⟩

/-- Counterexample for C4 as stated: immediately after `create_session` the
session has `alive = True` while `agent` is still `None` — the invariant
`alive == (agent_channel ≠ null)` fails in the window before `ws_agent`
assigns the channel. -/
theorem alive_invariant_c4_counterexample :
    (createSession 0 "h" 50 220).alive = true ∧
    (createSession 0 "h" 50 220).agent = none :=
  ⟨rfl, rfl⟩

-- ---------------------------------------------------------------------------
-- C5: malformed and unknown frames
-- ---------------------------------------------------------------------------

theorem truthy_of_getItem (msg : JVal) (k : String) (t : JVal)
    (h : msg.getItem k = .ok t) : msg.truthy = true := by
  cases msg <;> simp [JVal.getItem] at h ⊢
  rename_i kvs
  cases kvs with
  | nil => simp [List.lookup] at h
  | cons p rest => simp [JVal.truthy]

/-- C5 (amended): malformed JSON (`_parse_json` returning nothing), falsy
JSON values, and frames whose `type` value matches no handled tag are all
ignored by both relay loops: nothing is sent, the session is unchanged and
the loop continues.  (A truthy frame without a usable `type` key instead
raises and ends the loop: see the counterexample.) -/
theorem malformed_ignored_c5 (agentOk : Bool) (bad : Nat → Bool) (s : Session)
    (v : Nat) (msg t : JVal) :
    processAgentFrame bad s none = ⟨s, [], false⟩ ∧
    processViewerFrame agentOk bad s v none = ⟨s, [], false⟩ ∧
    (msg.truthy = false →
      processAgentFrame bad s (some msg) = ⟨s, [], false⟩ ∧
      processViewerFrame agentOk bad s v (some msg) = ⟨s, [], false⟩) ∧
    (msg.getItem "type" = .ok t → t.isStrEq "output" = false →
      t.isStrEq "pong" = false →
      processAgentFrame bad s (some msg) = ⟨s, [], false⟩) ∧
    (msg.getItem "type" = .ok t → t.isStrEq "ping" = false →
      t.isStrEq "input" = false → t.isStrEq "resize" = false →
      processViewerFrame agentOk bad s v (some msg) = ⟨s, [], false⟩) := by
  refine ⟨rfl, rfl, ?_, ?_, ?_⟩
  · intro h
    constructor <;> simp [processAgentFrame, processViewerFrame, h]
  · intro h h1 h2
    have ht := truthy_of_getItem msg "type" t h
    simp [processAgentFrame, ht, h, h1, h2]
  · intro h h1 h2 h3
    have ht := truthy_of_getItem msg "type" t h
    simp [processViewerFrame, ht, h, h1, h2, h3]

/-- Witness for C5: an unknown type tag on the agent loop and a falsy array
frame on the viewer loop, both ignored without any send. -/
theorem malformed_ignored_c5_witness :
    processAgentFrame (fun _ => false)
        ⟨"sidZ", "h", some 3, [7], [], 220, 50, true⟩
        (some (JVal.obj [("type", JVal.str "say")])) =
      ⟨⟨"sidZ", "h", some 3, [7], [], 220, 50, true⟩, [], false⟩ ∧
    processViewerFrame false (fun _ => false)
        ⟨"sidZ", "h", some 3, [7], [], 220, 50, true⟩ 7
        (some (JVal.arr [])) =
      ⟨⟨"sidZ", "h", some 3, [7], [], 220, 50, true⟩, [], false⟩ := by
  have h := malformed_ignored_c5 false (fun _ => false)
    ⟨"sidZ", "h", some 3, [7], [], 220, 50, true⟩ 7
    (JVal.obj [("type", JVal.str "say")]) (JVal.str "say")
  have h2 := malformed_ignored_c5 false (fun _ => false)
    ⟨"sidZ", "h", some 3, [7], [], 220, 50, true⟩ 7 (JVal.arr []) JVal.null
  exact ⟨h.2.2.2.1 rfl rfl rfl, (h2.2.2.1 rfl).2⟩

/-- Counterexample for C5 as stated: a truthy JSON frame with no `type` key
(or that is not a dict at all) is not ignored — `msg["type"]` raises, the
exception escapes the per-frame handling and the relay loop ends (for the
agent handler the session is then marked dead in `finally`). -/
theorem malformed_ignored_c5_counterexample :
    (processAgentFrame (fun _ => false)
        ⟨"sidW", "h", some 3, [7], [], 220, 50, true⟩
        (some (JVal.obj [("foo", JVal.num 1)]))).fatal = true ∧
    (processViewerFrame false (fun _ => false)
        ⟨"sidW", "h", some 3, [7], [], 220, 50, true⟩ 7
        (some (JVal.obj [("foo", JVal.num 1)]))).fatal = true ∧
    (processAgentFrame (fun _ => false)
        ⟨"sidW", "h", some 3, [7], [], 220, 50, true⟩
        (some (JVal.num 5))).fatal = true :=
  ⟨rfl, rfl, rfl⟩

-- ---------------------------------------------------------------------------
-- C6: session-id minting
-- ---------------------------------------------------------------------------

theorem hexCharsLE_length : ∀ (w v : Nat), (hexCharsLE w v).length = w
  | 0, _ => rfl
  | w + 1, v => by simp [hexCharsLE, hexCharsLE_length w]

theorem hexDigitChar_lower : ∀ d < 16, isLowerHexDigit (hexDigitChar d) = true := by
  decide

theorem hexDigitChar_inj : ∀ a < 16, ∀ b < 16,
    hexDigitChar a = hexDigitChar b → a = b := by
  decide

theorem mem_hexCharsLE : ∀ (w v : Nat), ∀ c ∈ hexCharsLE w v,
    isLowerHexDigit c = true := by
  intro w
  induction w with
  | zero => intro v c hc; exact absurd hc (List.not_mem_nil c)
  | succ w ih =>
      intro v c hc
      rcases List.mem_cons.mp hc with h | h
      · rw [h]
        exact hexDigitChar_lower (v % 16) (Nat.mod_lt v (by norm_num))
      · exact ih (v / 16) c h

theorem hexCharsLE_inj_mod : ∀ (w a b : Nat),
    hexCharsLE w a = hexCharsLE w b → a % 16 ^ w = b % 16 ^ w := by
  intro w
  induction w with
  | zero =>
      intro a b _
      rw [pow_zero, Nat.mod_one, Nat.mod_one]
  | succ w ih =>
      intro a b h
      simp only [hexCharsLE, List.cons.injEq] at h
      have h1 : a % 16 = b % 16 :=
        hexDigitChar_inj (a % 16) (Nat.mod_lt a (by norm_num))
          (b % 16) (Nat.mod_lt b (by norm_num)) h.1
      have h2 := ih (a / 16) (b / 16) h.2
      have e1 : a % 16 ^ (w + 1) = a % 16 + 16 * (a / 16 % 16 ^ w) := by
        rw [pow_succ']
        exact Nat.mod_mul
      have e2 : b % 16 ^ (w + 1) = b % 16 + 16 * (b / 16 % 16 ^ w) := by
        rw [pow_succ']
        exact Nat.mod_mul
      rw [e1, e2, h1, h2]

theorem hexCharsLE_drop : ∀ (k w v : Nat),
    (hexCharsLE w v).drop k = hexCharsLE (w - k) (v / 16 ^ k) := by
  intro k
  induction k with
  | zero => intro w v; simp
  | succ k ih =>
      intro w v
      cases w with
      | zero => simp [hexCharsLE]
      | succ w =>
          show (hexCharsLE w (v / 16)).drop k = _
          rw [ih w (v / 16), Nat.succ_sub_succ, Nat.div_div_eq_div_mul,
            ← pow_succ']

theorem mintSid_take (n : Nat) :
    (uuid4Hex n).take 10 = (hexCharsLE 10 ((n % 2 ^ 128) / 16 ^ 22)).reverse := by
  unfold uuid4Hex
  rw [List.take_reverse, hexCharsLE_length]
  norm_num
  rw [hexCharsLE_drop]
  norm_num

theorem mintSid_inj (n m : Nat)
    (h : (n % 2 ^ 128) / 16 ^ 22 ≠ (m % 2 ^ 128) / 16 ^ 22) :
    mintSid n ≠ mintSid m := by
  intro he
  apply h
  have hd : (uuid4Hex n).take 10 = (uuid4Hex m).take 10 :=
    congrArg String.data he
  rw [mintSid_take, mintSid_take] at hd
  have hinj := hexCharsLE_inj_mod 10 _ _ (List.reverse_injective hd)
  have hn : (n % 2 ^ 128) / 16 ^ 22 < 16 ^ 10 := by
    apply Nat.div_lt_of_lt_mul
    calc n % 2 ^ 128 < 2 ^ 128 := Nat.mod_lt _ (by positivity)
      _ = 16 ^ 22 * 16 ^ 10 := by norm_num
  have hm : (m % 2 ^ 128) / 16 ^ 22 < 16 ^ 10 := by
    apply Nat.div_lt_of_lt_mul
    calc m % 2 ^ 128 < 2 ^ 128 := Nat.mod_lt _ (by positivity)
      _ = 16 ^ 22 * 16 ^ 10 := by norm_num
  rwa [Nat.mod_eq_of_lt hn, Nat.mod_eq_of_lt hm] at hinj

/-- C6 (amended): every minted session id is a 10-character lowercase-hex
string (`uuid4().hex[:10]`), and two `create_session` calls return distinct
ids whenever their 128-bit random draws differ in the 40 bits the 10-digit
prefix covers.  The code performs no collision check, so equal draws yield
equal ids and the second insertion overwrites the registry entry: see the
counterexample. -/
theorem session_id_c6 (n m : Nat) (name1 name2 : String) (r1 c1 r2 c2 : Int)
    (hpre : (n % 2 ^ 128) / 16 ^ 22 ≠ (m % 2 ^ 128) / 16 ^ 22) :
    (createSession n name1 r1 c1).id.length = 10 ∧
    (∀ c ∈ (createSession n name1 r1 c1).id.data, isLowerHexDigit c = true) ∧
    (createSession n name1 r1 c1).id ≠ (createSession m name2 r2 c2).id := by
  refine ⟨?_, ?_, mintSid_inj n m hpre⟩
  · show ((uuid4Hex n).take 10).length = 10
    rw [List.length_take, uuid4Hex, List.length_reverse, hexCharsLE_length]
    norm_num
  · intro c hc
    have h1 : c ∈ uuid4Hex n := List.take_subset _ _ hc
    rw [uuid4Hex, List.mem_reverse] at h1
    exact mem_hexCharsLE 32 _ c h1

/-- Witness for C6: draws `2^127` and `0` differ in the id prefix, so the
two sessions get distinct ids. -/
theorem session_id_c6_witness :
    (createSession (2 ^ 127) "a" 50 220).id.length = 10 ∧
    (createSession (2 ^ 127) "a" 50 220).id ≠ (createSession 0 "b" 50 220).id := by
  have h := session_id_c6 (2 ^ 127) 0 "a" "b" 50 220 50 220 (by norm_num)
  exact ⟨h.1, h.2.2⟩

/-- Counterexample for C6 as stated: `create_session` does not guarantee
distinct ids — equal `uuid4` draws (possible, however unlikely) give equal
ids, and the second `_sessions[sid] = sess` overwrites the first registry
entry, leaving a single entry that holds the second session. -/
theorem session_id_c6_counterexample :
    (createSession 0 "h1" 50 220).id = (createSession 0 "h2" 50 220).id ∧
    (createSessionReg (createSessionReg [] 0 "h1" 50 220).1 0 "h2" 50 220).1 =
      [("0000000000", createSession 0 "h2" 50 220)] :=
  ⟨rfl, rfl⟩
